import Mathlib

/-!
# Grape monitor backend — counter-cut reconciliation engine

Shallow embedding of the printers router (`routes/impresoras.js`) of the
grape-monitor backend: the online-state derivation, the cut calculator,
the cut ledger (register-cut route), the telemetry ingestor and the
inputs handed to the report renderer.

Conventions of the embedding:
* JavaScript numbers that the code guards with `typeof x === 'number' &&
  !Number.isNaN(x)` or `isFinite(Number(x))` are modelled as `Option Int`
  (`none` = absent or non-numeric).
* Nullable strings are `Option String`; JavaScript truthiness `!!s` on
  them is `truthyStr` (`null`/absent and the empty string are falsy).
* Timestamps are `Int` milliseconds; a stored last-seen value is
  `Option TsVal`, where `TsVal.unparsable` models a date whose
  `getTime()` is `NaN`.
* `Date#toLocaleDateString()` is modelled only as a deterministic
  rendering of the millisecond timestamp (`localeDateString`); the exact
  locale text is irrelevant to every property proved here.
* Mongo collections are association lists `List (Nat × α)` keyed by
  document id; `find`/`findOne` take the first match, `findOneAndUpdate`
  rewrites the first match in place.
-/

namespace GrapeMonitor

/-- Result of coercing a stored last-seen value to a millisecond
timestamp: either a finite number or `NaN` (`new Date(x).getTime()`). -/
inductive TsVal where
  | unparsable : TsVal
  | parsed : Int → TsVal
  deriving DecidableEq, Repr

/-- One reported supply entry `{name, level, max}`; `level`/`max` are
`none` when `Number(...)` of the reported field is not finite. -/
structure Supply where
  name : Option String
  level : Option Int
  max : Option Int
  deriving DecidableEq, Repr

/-- The `ImpresoraLatest` document: the single mutable latest-state
record per device, as written by the ingestion route. -/
structure LatestState where
  lastPageCount : Option Int
  lastPageMono : Option Int
  lastPageColor : Option Int
  lastSupplies : List Supply
  lastSeenAt : Option TsVal
  lowToner : Bool
  online : Option Bool
  ultimoCorteId : Option Nat
  lastCutDate : Option Int
  deriving DecidableEq, Repr

/-- `ONLINE_STALE_MS` default: `2 * 60 * 1000` (the env override is the
`staleMs` parameter of `computeDerivedOnline`). -/
def ONLINE_STALE_MS_default : Int := 2 * 60 * 1000

/-- `computeDerivedOnline(latest, now)` from the source: `false` when the
snapshot is absent, has no last-seen value, carries `online === false`,
or its last-seen value parses to `NaN`; otherwise `now - ts ≤ staleMs`. -/
def computeDerivedOnline (latest : Option LatestState) (now staleMs : Int) : Bool :=
  match latest with
  | none => false
  | some l =>
    match l.lastSeenAt with
    | none => false
    | some tsv =>
      if l.online = some false then false
      else
        match tsv with
        | TsVal.unparsable => false
        | TsVal.parsed ts => decide (now - ts ≤ staleMs)

/-- Deterministic stand-in for `Date#toLocaleDateString()` on a
millisecond timestamp. -/
def localeDateString (t : Int) : String := toString t

/-- The `CortesMensuales` document with the fields the register-cut
route writes (the calendar fields `mes`/`año`, derived purely from the
cut instant, are not modelled; no previous-cut reference field exists —
neither the creation site nor the spec's Cut model carries one). -/
structure Corte where
  printerId : Nat
  empresaId : Nat
  fechaCorte : Int
  contadorInicioGeneral : Int
  contadorFinGeneral : Int
  totalPaginasGeneral : Int
  periodo : String
  suppliesInicio : List Supply
  suppliesFin : List Supply
  nombreImpresora : String
  modeloImpresora : String
  deriving DecidableEq, Repr

/-- The record returned by `calcularPeriodoCorte`. -/
structure CorteResult where
  contadorInicioGeneral : Int
  contadorFinGeneral : Int
  totalPaginasGeneral : Int
  periodo : String
  esPrimerCorte : Bool
  deriving DecidableEq, Repr

/-- `calcularPeriodoCorte(ultimoCorte, contadoresActuales)` from the
source.  `contadoresActuales.lastPageCount || 0` is `Option.getD 0`;
`ultimoCorte.contadorFinGeneral || 0` is the identity on the `Int`-valued
stored field (`0 || 0` is `0`).  `now` stands for the `new Date()` taken
for the period-end label. -/
def calcularPeriodoCorte (ultimoCorte : Option Corte) (contadoresActuales : LatestState)
    (now : Int) : CorteResult :=
  let contadorActual := contadoresActuales.lastPageCount.getD 0
  match ultimoCorte with
  | none =>
    { contadorInicioGeneral := 0
      contadorFinGeneral := contadorActual
      totalPaginasGeneral := contadorActual
      periodo := "Desde instalación"
      esPrimerCorte := true }
  | some uc =>
    { contadorInicioGeneral := uc.contadorFinGeneral
      contadorFinGeneral := contadorActual
      totalPaginasGeneral := max 0 (contadorActual - uc.contadorFinGeneral)
      periodo := localeDateString uc.fechaCorte ++ " - " ++ localeDateString now
      esPrimerCorte := false }

end GrapeMonitor

namespace GrapeMonitor

/-- C1: with a previous cut of end counter `E` and a snapshot whose page
count (missing treated as 0) is `C`, the cut calculator returns
`startCounter = E`, `endCounter = C`, `totalPages = max 0 (C - E)` and
`isFirstCut = false`; a counter decrease (`C < E`) yields `totalPages = 0`
and the total is never negative. -/
theorem calcularPeriodoCorte_prev_spec :
    ∀ (prev : Corte) (latest : LatestState) (now : Int),
      (calcularPeriodoCorte (some prev) latest now).contadorInicioGeneral =
        prev.contadorFinGeneral ∧
      (calcularPeriodoCorte (some prev) latest now).contadorFinGeneral =
        latest.lastPageCount.getD 0 ∧
      (calcularPeriodoCorte (some prev) latest now).totalPaginasGeneral =
        max 0 (latest.lastPageCount.getD 0 - prev.contadorFinGeneral) ∧
      (calcularPeriodoCorte (some prev) latest now).esPrimerCorte = false ∧
      (latest.lastPageCount.getD 0 < prev.contadorFinGeneral →
        (calcularPeriodoCorte (some prev) latest now).totalPaginasGeneral = 0) ∧
      0 ≤ (calcularPeriodoCorte (some prev) latest now).totalPaginasGeneral := by
  intro prev latest now
  refine ⟨rfl, rfl, rfl, rfl, ?_, ?_⟩
  · intro h
    simp only [calcularPeriodoCorte]
    omega
  · simp only [calcularPeriodoCorte]
    exact le_max_left 0 _

/-- Concrete previous cut for the C1 witness (the spec's counter-reset
example: previous end 1500, latest page count 200). -/
def corteC1 : Corte :=
  { printerId := 0
    empresaId := 0
    fechaCorte := 0
    contadorInicioGeneral := 0
    contadorFinGeneral := 1500
    totalPaginasGeneral := 1500
    periodo := "Desde instalación"
    suppliesInicio := []
    suppliesFin := []
    nombreImpresora := "hp"
    modeloImpresora := "" }

/-- Concrete snapshot for the C1 witness. -/
def latestC1 : LatestState :=
  { lastPageCount := some 200
    lastPageMono := none
    lastPageColor := none
    lastSupplies := []
    lastSeenAt := some (TsVal.parsed 0)
    lowToner := false
    online := some true
    ultimoCorteId := none
    lastCutDate := none }

/-- C1 witness: the counter-reset hypothesis holds at the concrete
inputs and the clamped total is 0. -/
theorem calcularPeriodoCorte_prev_witness :
    latestC1.lastPageCount.getD 0 < corteC1.contadorFinGeneral ∧
      (calcularPeriodoCorte (some corteC1) latestC1 0).totalPaginasGeneral = 0 :=
  ⟨by decide, (calcularPeriodoCorte_prev_spec corteC1 latestC1 0).2.2.2.2.1 (by decide)⟩

/-- C2: with no previous cut, the cut calculator returns
`startCounter = 0`, `endCounter = totalPages = ` the snapshot's page
count (missing treated as 0), the since-installation label
`"Desde instalación"`, and `isFirstCut = true`. -/
theorem calcularPeriodoCorte_first_spec :
    ∀ (latest : LatestState) (now : Int),
      (calcularPeriodoCorte none latest now).contadorInicioGeneral = 0 ∧
      (calcularPeriodoCorte none latest now).contadorFinGeneral =
        latest.lastPageCount.getD 0 ∧
      (calcularPeriodoCorte none latest now).totalPaginasGeneral =
        latest.lastPageCount.getD 0 ∧
      (calcularPeriodoCorte none latest now).periodo = "Desde instalación" ∧
      (calcularPeriodoCorte none latest now).esPrimerCorte = true ∧
      (latest.lastPageCount = none →
        (calcularPeriodoCorte none latest now).contadorFinGeneral = 0) := by
  intro latest now
  refine ⟨rfl, rfl, rfl, rfl, rfl, ?_⟩
  intro h
  simp only [calcularPeriodoCorte, h, Option.getD_none]

/-- Concrete snapshot with a missing page count for the C2 witness. -/
def latestC2 : LatestState :=
  { lastPageCount := none
    lastPageMono := none
    lastPageColor := none
    lastSupplies := []
    lastSeenAt := none
    lowToner := false
    online := none
    ultimoCorteId := none
    lastCutDate := none }

/-- C2 witness: a first cut over a snapshot with missing page count has
end counter 0. -/
theorem calcularPeriodoCorte_first_witness :
    latestC2.lastPageCount = none ∧
      (calcularPeriodoCorte none latestC2 0).contadorFinGeneral = 0 :=
  ⟨rfl, (calcularPeriodoCorte_first_spec latestC2 0).2.2.2.2.2 rfl⟩

/-- The `Impresora` document: device identity, exactly the fields the
ingestion route's `setBase` writes. -/
structure Impresora where
  empresaId : Nat
  ciudad : Option String
  host : String
  serial : Option String
  sysName : Option String
  sysDescr : Option String
  printerName : Option String
  model : Option String
  deriving DecidableEq, Repr

/-- JavaScript truthiness `!!s` of a nullable string: `null`/absent and
the empty string are falsy. -/
def truthyStr : Option String → Bool
  | none => false
  | some s => !(s == "")

/-- The body accepted by `POST /api/metrics/impresoras` after its
destructuring defaults (`serial = null`, `supplies = []`, ...). -/
structure Report where
  host : String
  pageCount : Option Int
  pageCountMono : Option Int
  pageCountColor : Option Int
  supplies : List Supply
  sysName : Option String
  sysDescr : Option String
  printerName : Option String
  serial : Option String
  model : Option String
  ciudad : Option String
  ts : TsVal
  deriving DecidableEq, Repr

/-- The `claveOr` filter of the ingestion route:
`serial ? { $or: [{serial}, {host}] } : { host }`, always conjoined with
`empresaId`. -/
def claveMatches (eid : Nat) (r : Report) (d : Impresora) : Bool :=
  d.empresaId == eid &&
    (if truthyStr r.serial then d.serial == r.serial || d.host == r.host
     else d.host == r.host)

/-- The `setBase` document: the device-identity fields written
(last-write-wins) on every ingestion; `ciudad: ciudad || null`. -/
def nuevaImpresora (eid : Nat) (r : Report) : Impresora :=
  { empresaId := eid
    ciudad := if truthyStr r.ciudad then r.ciudad else none
    host := r.host
    serial := r.serial
    sysName := r.sysName
    sysDescr := r.sysDescr
    printerName := r.printerName
    model := r.model }

/-- `findOneAndUpdate` with a full `$set`: replace the first entry whose
document matches, leave the rest untouched. -/
def updateWhere (p : Impresora → Bool) (v : Impresora) :
    List (Nat × Impresora) → List (Nat × Impresora)
  | [] => []
  | (k, d) :: rest =>
    if p d then (k, v) :: rest else (k, d) :: updateWhere p v rest

/-- `Impresora.findOneAndUpdate({empresaId, ...claveOr}, {$set: setBase},
{upsert: true})`: update the first match in place, or insert a fresh
document under a fresh id; returns the resolved device id. -/
def ingestResolve (devs : List (Nat × Impresora)) (nextId eid : Nat) (r : Report) :
    Nat × List (Nat × Impresora) :=
  match devs.find? (fun kd => claveMatches eid r kd.2) with
  | some kd => (kd.1, updateWhere (claveMatches eid r) (nuevaImpresora eid r) devs)
  | none => (nextId, devs ++ [(nextId, nuevaImpresora eid r)])

/-- Modelled from the spec (C7 claim wording): the resolution key is
`(tenant, serial)` alone when a serial is present, else `(tenant, host)`. -/
def claveMatchesSpec (eid : Nat) (r : Report) (d : Impresora) : Bool :=
  d.empresaId == eid &&
    (if truthyStr r.serial then d.serial == r.serial else d.host == r.host)

/-- Modelled from the spec (C7 claim wording): resolve-or-create under
the `(tenant, serial)`-when-present key. -/
def ingestResolveSpec (devs : List (Nat × Impresora)) (nextId eid : Nat) (r : Report) :
    Nat × List (Nat × Impresora) :=
  match devs.find? (fun kd => claveMatchesSpec eid r kd.2) with
  | some kd => (kd.1, updateWhere (claveMatchesSpec eid r) (nuevaImpresora eid r) devs)
  | none => (nextId, devs ++ [(nextId, nuevaImpresora eid r)])

/-- The `snmpOk` liveness signal of the ingestion route:
`(typeof pageCount === 'number' && !Number.isNaN(pageCount)) ||
(Array.isArray(supplies) && supplies.length > 0) || !!sysName ||
!!sysDescr || !!serial || !!model`. -/
def snmpOk (r : Report) : Bool :=
  r.pageCount.isSome || !r.supplies.isEmpty || truthyStr r.sysName ||
    truthyStr r.sysDescr || truthyStr r.serial || truthyStr r.model

/-- Modelled from the spec (C8 claim wording): liveness also counts the
remaining identity strings of the report (`printerName`, `host`). -/
def snmpOkSpec (r : Report) : Bool :=
  r.pageCount.isSome || !r.supplies.isEmpty || truthyStr r.sysName ||
    truthyStr r.sysDescr || truthyStr r.printerName || truthyStr r.serial ||
    truthyStr r.model || !(r.host == "")

/-- Per-supply low test of the ingestion route: ratio `(lvl/max)*100 ≤ 20`
when both are finite and `max > 0`, else bare `lvl ≤ 20` when `lvl` is
finite. -/
def supplyLow (s : Supply) : Bool :=
  match s.level, s.max with
  | some lvl, some mx =>
    if 0 < mx then decide ((lvl : ℚ) / (mx : ℚ) * 100 ≤ 20) else decide (lvl ≤ 20)
  | some lvl, none => decide (lvl ≤ 20)
  | none, _ => false

/-- `lowToner = Array.isArray(supplies) && supplies.some(...)`. -/
def lowTonerOf (supplies : List Supply) : Bool := supplies.any supplyLow

/-- The `$set` issued on `ImpresoraLatest` by the ingestion route; the
cut-pointer fields are not in the `$set`, so they keep their old value
(`none` on upsert-insert). -/
def ingestaLatestUpdate (r : Report) (old : Option LatestState) : LatestState :=
  { lastPageCount := r.pageCount
    lastPageMono := r.pageCountMono
    lastPageColor := r.pageCountColor
    lastSupplies := r.supplies
    lastSeenAt := some r.ts
    lowToner := lowTonerOf r.supplies
    online := some (snmpOk r)
    ultimoCorteId := old.bind (fun l => l.ultimoCorteId)
    lastCutDate := old.bind (fun l => l.lastCutDate) }

/-- C3: derived online is `false` for an absent snapshot, a missing or
unparsable last-seen value, or an explicit raw `online = false`;
otherwise it is `true` iff `now - lastSeen ≤ staleMs` (boundary
inclusive), and the process default threshold is 120000 ms. -/
theorem computeDerivedOnline_spec :
    ∀ (latest : Option LatestState) (now staleMs : Int),
      (computeDerivedOnline latest now staleMs = true ↔
        ∃ l ts, latest = some l ∧ l.lastSeenAt = some (TsVal.parsed ts) ∧
          l.online ≠ some false ∧ now - ts ≤ staleMs) ∧
      ONLINE_STALE_MS_default = 120000 := by
  intro latest now staleMs
  refine ⟨?_, rfl⟩
  cases latest with
  | none => simp [computeDerivedOnline]
  | some l =>
    cases hseen : l.lastSeenAt with
    | none => simp [computeDerivedOnline, hseen]
    | some tsv =>
      by_cases honline : l.online = some false
      · simp [computeDerivedOnline, hseen, honline]
      · cases tsv with
        | unparsable => simp [computeDerivedOnline, hseen, honline]
        | parsed ts => simp [computeDerivedOnline, hseen, honline]

/-- Concrete snapshot for the C3 witness: last seen exactly one
threshold ago, raw flag true. -/
def latestC3 : LatestState :=
  { lastPageCount := none
    lastPageMono := none
    lastPageColor := none
    lastSupplies := []
    lastSeenAt := some (TsVal.parsed 0)
    lowToner := false
    online := some true
    ultimoCorteId := none
    lastCutDate := none }

/-- C3 witness: at the inclusive boundary (`now - lastSeen` equal to the
default threshold) the derived state is online. -/
theorem computeDerivedOnline_spec_witness :
    computeDerivedOnline (some latestC3) 120000 120000 = true :=
  ((computeDerivedOnline_spec (some latestC3) 120000 120000).1).mpr
    ⟨latestC3, 0, rfl, rfl, by decide, by decide⟩

lemma updateWhere_length (p : Impresora → Bool) (v : Impresora)
    (l : List (Nat × Impresora)) : (updateWhere p v l).length = l.length := by
  induction l with
  | nil => rfl
  | cons x rest ih =>
    obtain ⟨k, d⟩ := x
    by_cases hp : p d = true <;> simp [updateWhere, hp, ih]

lemma mem_updateWhere_of_find? (p : Impresora → Bool) (v : Impresora)
    (l : List (Nat × Impresora)) (kd : Nat × Impresora)
    (h : l.find? (fun x => p x.2) = some kd) :
    (kd.1, v) ∈ updateWhere p v l := by
  induction l with
  | nil => simp at h
  | cons x rest ih =>
    obtain ⟨k, d⟩ := x
    rw [List.find?_cons_eq_some] at h
    rcases h with ⟨hpa, hab⟩ | ⟨hpa, hfind⟩
    · subst hab
      simp [updateWhere, show p d = true from hpa]
    · have hb : p d = false := by simpa using hpa
      rw [show updateWhere p v ((k, d) :: rest) = (k, d) :: updateWhere p v rest from by
        simp [updateWhere, hb]]
      exact List.mem_cons_of_mem _ (ih hfind)

/-- Existing device for the C7 concrete inputs: serial "S1" on host
"10.0.0.5" in tenant 7. -/
def devC7 : Impresora :=
  { empresaId := 7, ciudad := none, host := "10.0.0.5", serial := some "S1",
    sysName := none, sysDescr := none, printerName := none, model := none }

/-- C7 concrete report: serial "S2" reported from the same host. -/
def reportC7 : Report :=
  { host := "10.0.0.5", pageCount := some 100, pageCountMono := none,
    pageCountColor := none, supplies := [], sysName := none, sysDescr := none,
    printerName := none, serial := some "S2", model := none, ciudad := none,
    ts := TsVal.parsed 0 }

/-- C7 counterexample: a report carrying serial "S2" from host
"10.0.0.5" is matched by the code to the existing device with serial
"S1" on that host (the key is serial OR host) and overwrites it in
place, while resolution by `(tenant, serial)` alone would have created a
second device. -/
theorem ingestResolve_ne_claim :
    ingestResolve [(0, devC7)] 1 7 reportC7 ≠ ingestResolveSpec [(0, devC7)] 1 7 reportC7 ∧
      (ingestResolve [(0, devC7)] 1 7 reportC7).2.length = 1 ∧
      (ingestResolveSpec [(0, devC7)] 1 7 reportC7).2.length = 2 := by
  decide

/-- C7 amended: the device is resolved by matching the tenant and, when
a serial is present, the serial OR the host (else the host alone); a
matching device is rewritten in place with the report's identity fields
(last-write-wins), and a fresh device is appended exactly when no device
matches that serial-or-host key. -/
theorem ingestResolve_amended :
    ∀ (devs : List (Nat × Impresora)) (nextId eid : Nat) (r : Report),
      (∀ d : Impresora, claveMatches eid r d = true ↔
        (d.empresaId = eid ∧
          ((truthyStr r.serial = true ∧ (d.serial = r.serial ∨ d.host = r.host)) ∨
           (truthyStr r.serial = false ∧ d.host = r.host)))) ∧
      ((ingestResolve devs nextId eid r).1, nuevaImpresora eid r) ∈
        (ingestResolve devs nextId eid r).2 ∧
      ((∃ kd ∈ devs, claveMatches eid r kd.2 = true) →
        (ingestResolve devs nextId eid r).2.length = devs.length) ∧
      ((∀ kd ∈ devs, claveMatches eid r kd.2 = false) →
        ingestResolve devs nextId eid r = (nextId, devs ++ [(nextId, nuevaImpresora eid r)])) := by
  intro devs nextId eid r
  refine ⟨?_, ?_, ?_, ?_⟩
  · intro d
    unfold claveMatches
    cases hs : truthyStr r.serial <;> simp [hs]
  · cases hf : devs.find? (fun kd => claveMatches eid r kd.2) with
    | none => simp [ingestResolve, hf]
    | some kd =>
      simp only [ingestResolve, hf]
      exact mem_updateWhere_of_find? _ _ _ _ hf
  · intro h
    have hsome : (devs.find? (fun kd => claveMatches eid r kd.2)).isSome := by
      rw [List.find?_isSome]
      obtain ⟨kd, hmem, hkd⟩ := h
      exact ⟨kd, hmem, hkd⟩
    obtain ⟨kd, hf⟩ := Option.isSome_iff_exists.mp hsome
    simp [ingestResolve, hf, updateWhere_length]
  · intro h
    have hf : devs.find? (fun kd => claveMatches eid r kd.2) = none := by
      rw [List.find?_eq_none]
      intro kd hmem
      simp [h kd hmem]
    simp [ingestResolve, hf]

/-- C7 witness: at the concrete store and report, a serial-or-host match
exists and the store size is unchanged by ingestion. -/
theorem ingestResolve_amended_witness :
    (∃ kd ∈ [(0, devC7)], claveMatches 7 reportC7 kd.2 = true) ∧
      (ingestResolve [(0, devC7)] 1 7 reportC7).2.length = [(0, devC7)].length :=
  ⟨by decide, (ingestResolve_amended [(0, devC7)] 1 7 reportC7).2.2.1 (by decide)⟩

/-- C8 concrete report: only `printerName` (besides the required `host`)
is present. -/
def reportC8 : Report :=
  { host := "10.0.0.9", pageCount := none, pageCountMono := none,
    pageCountColor := none, supplies := [], sysName := none, sysDescr := none,
    printerName := some "HP LaserJet", serial := none, model := none,
    ciudad := none, ts := TsVal.parsed 0 }

/-- C8 counterexample: a report whose only present identity strings are
`printerName` and the (always required) `host` is stored with raw online
flag `false`: `snmpOk` does not consult `printerName` or `host`, so "any
identity string present" does not imply a true flag. -/
theorem snmpOk_ne_claim :
    snmpOk reportC8 = false ∧ snmpOkSpec reportC8 = true ∧
      (ingestaLatestUpdate reportC8 none).online = some false := by
  decide

/-- C8 amended: the raw online flag stored on LatestState is true iff
pageCount is present and numeric, the supplies list is non-empty, or one
of the identity strings sysName, sysDescr, serial, model is present
(truthy); printerName and host are never consulted. -/
theorem snmpOk_amended :
    ∀ (r : Report),
      (snmpOk r = true ↔
        (r.pageCount.isSome = true ∨ r.supplies ≠ [] ∨ truthyStr r.sysName = true ∨
          truthyStr r.sysDescr = true ∨ truthyStr r.serial = true ∨
          truthyStr r.model = true)) ∧
      (∀ p h, snmpOk { r with printerName := p, host := h } = snmpOk r) ∧
      (∀ old, (ingestaLatestUpdate r old).online = some (snmpOk r)) := by
  intro r
  refine ⟨?_, fun p h => rfl, fun old => rfl⟩
  have hsup : (!r.supplies.isEmpty) = true ↔ r.supplies ≠ [] := by
    cases r.supplies <;> simp
  simp only [snmpOk, Bool.or_eq_true, hsup]
  tauto

/-- C8 witness: the stored flag is insensitive to `printerName` and
`host` at the concrete report. -/
theorem snmpOk_amended_witness :
    snmpOk { reportC8 with printerName := none, host := "10.0.0.99" } = snmpOk reportC8 :=
  (snmpOk_amended reportC8).2.1 none "10.0.0.99"

lemma supplyLow_iff (s : Supply) :
    supplyLow s = true ↔
      ∃ lvl, s.level = some lvl ∧
        ((∃ mx, s.max = some mx ∧ 0 < mx ∧ (lvl : ℚ) / (mx : ℚ) ≤ 1 / 5) ∨
         ((s.max = none ∨ ∃ mx, s.max = some mx ∧ mx ≤ 0) ∧ lvl ≤ 20)) := by
  cases hl : s.level with
  | none => simp [supplyLow, hl]
  | some lvl =>
    cases hm : s.max with
    | none => simp [supplyLow, hl, hm]
    | some mx =>
      by_cases hpos : 0 < mx
      · have hnle : ¬ mx ≤ 0 := by omega
        simp only [supplyLow, hl, hm, if_pos hpos, decide_eq_true_eq]
        simp [hpos, hnle]
        constructor <;> intro h <;> linarith
      · have hle : mx ≤ 0 := by omega
        simp only [supplyLow, hl, hm, if_neg hpos, decide_eq_true_eq]
        simp [hpos, hle]

/-- C9: the derived lowToner flag is true iff some reported supply has a
numeric level whose ratio to a present positive max is at most 20%, or a
bare numeric level at most 20 when max is absent or non-positive; in
particular `{level 15, max 100}` is low, `{level 25, max 100}` is not,
and `{level 18}` with no max is low. -/
theorem lowToner_spec :
    ∀ (supplies : List Supply),
      (lowTonerOf supplies = true ↔
        ∃ s ∈ supplies, ∃ lvl, s.level = some lvl ∧
          ((∃ mx, s.max = some mx ∧ 0 < mx ∧ (lvl : ℚ) / (mx : ℚ) ≤ 1 / 5) ∨
           ((s.max = none ∨ ∃ mx, s.max = some mx ∧ mx ≤ 0) ∧ lvl ≤ 20))) ∧
      supplyLow { name := none, level := some 15, max := some 100 } = true ∧
      supplyLow { name := none, level := some 25, max := some 100 } = false ∧
      supplyLow { name := none, level := some 18, max := none } = true := by
  intro supplies
  refine ⟨?_, by norm_num [supplyLow], by norm_num [supplyLow], by decide⟩
  unfold lowTonerOf
  rw [List.any_eq_true]
  exact exists_congr fun s => and_congr_right fun _ => supplyLow_iff s

/-- C9 witness: a single 15-of-100 supply triggers the flag through the
proved characterization. -/
theorem lowToner_spec_witness :
    lowTonerOf [{ name := some "black", level := some 15, max := some 100 }] = true :=
  ((lowToner_spec [{ name := some "black", level := some 15, max := some 100 }]).1).mpr
    ⟨_, List.mem_singleton_self _, 15, rfl,
      Or.inl ⟨100, rfl, by norm_num, by norm_num⟩⟩

/-- The shared data store: the three collections touched by the cut
ledger, keyed by document id, plus the id the next `save()` allocates. -/
structure Store where
  impresoras : List (Nat × Impresora)
  latests : List (Nat × LatestState)
  cortes : List (Nat × Corte)
  nextCorteId : Nat
  deriving DecidableEq, Repr

/-- `findById` / `findOne` on a keyed collection: first entry under the
key. -/
def lookup {α : Type _} (l : List (Nat × α)) (k : Nat) : Option α :=
  match l with
  | [] => none
  | (k2, v) :: rest => if k2 == k then some v else lookup rest k

/-- `findOneAndUpdate` (no upsert) on a keyed collection: rewrite the
first entry under the key, if any. -/
def updateLookup {α : Type _} (l : List (Nat × α)) (k : Nat) (f : α → α) :
    List (Nat × α) :=
  match l with
  | [] => []
  | (k2, v) :: rest =>
    if k2 == k then (k2, f v) :: rest else (k2, v) :: updateLookup rest k f

/-- JavaScript `a || b` on a nullable string (empty string is falsy). -/
def jsOrStr (a : Option String) (b : String) : String :=
  match a with
  | none => b
  | some s => if s == "" then b else s

/-- The two store writes the register-cut route issues, in order. -/
inductive StoreOp where
  | saveCorte : Nat → Corte → StoreOp
  | setUltimoCorte : Nat → Nat → Int → StoreOp
  deriving DecidableEq, Repr

/-- Effect of one store write: `nuevoCorte.save()` appends the cut under
a fresh id; the pointer update rewrites `ultimoCorteId`/`lastCutDate` on
the device's latest-state record. -/
def applyOp (s : Store) : StoreOp → Store
  | StoreOp.saveCorte cid c =>
    { s with cortes := s.cortes ++ [(cid, c)], nextCorteId := s.nextCorteId + 1 }
  | StoreOp.setUltimoCorte pid cid d =>
    let f := fun l : LatestState =>
      { l with ultimoCorteId := some cid, lastCutDate := some d }
    { s with latests := updateLookup s.latests pid f }

/-- Apply a sequence of store writes in order. -/
def applyOps (s : Store) (ops : List StoreOp) : Store := ops.foldl applyOp s

/-- The `new CortesMensuales({...})` document built by the register-cut
route (`suppliesInicio: ultimoCorte?.suppliesFin || []`,
`suppliesFin: latest.lastSupplies || []`). -/
def nuevoCorte (printerId : Nat) (imp : Impresora) (latest : LatestState)
    (ultimoCorte : Option Corte) (now : Int) : Corte :=
  let calculos := calcularPeriodoCorte ultimoCorte latest now
  { printerId := printerId
    empresaId := imp.empresaId
    fechaCorte := now
    contadorInicioGeneral := calculos.contadorInicioGeneral
    contadorFinGeneral := calculos.contadorFinGeneral
    totalPaginasGeneral := calculos.totalPaginasGeneral
    periodo := calculos.periodo
    suppliesInicio := (ultimoCorte.map (fun c => c.suppliesFin)).getD []
    suppliesFin := latest.lastSupplies
    nombreImpresora := jsOrStr imp.printerName (jsOrStr imp.sysName imp.host)
    modeloImpresora := jsOrStr imp.model (jsOrStr imp.sysDescr "") }

/-- The ordered store writes of `POST /api/impresoras/:id/registrar-corte`
once both preconditions hold: first the cut save, then the pointer
update (empty when a precondition fails). -/
def registrarCorteOps (s : Store) (printerId : Nat) (now : Int) : List StoreOp :=
  match lookup s.impresoras printerId with
  | none => []
  | some imp =>
    match lookup s.latests printerId with
    | none => []
    | some latest =>
      let ultimoCorte := latest.ultimoCorteId.bind (lookup s.cortes)
      [StoreOp.saveCorte s.nextCorteId (nuevoCorte printerId imp latest ultimoCorte now),
       StoreOp.setUltimoCorte printerId s.nextCorteId now]

/-- Outcome of the register-cut route. -/
inductive RegistrarResult where
  | notFound : String → RegistrarResult
  | ok : Nat → RegistrarResult
  deriving DecidableEq, Repr

/-- The register-cut route: 404 when the device or its latest-state
record is missing (nothing written), else run the two writes and answer
with the new cut's id. -/
def registrarCorte (s : Store) (printerId : Nat) (now : Int) :
    RegistrarResult × Store :=
  match lookup s.impresoras printerId with
  | none => (RegistrarResult.notFound "Impresora no encontrada", s)
  | some _ =>
    match lookup s.latests printerId with
    | none => (RegistrarResult.notFound "Datos de impresora no encontrados", s)
    | some _ =>
      (RegistrarResult.ok s.nextCorteId, applyOps s (registrarCorteOps s printerId now))

/-- Every stored latest-cut pointer references a persisted cut. -/
def pointerIntact (s : Store) : Prop :=
  ∀ pid l cid, lookup s.latests pid = some l → l.ultimoCorteId = some cid →
    (lookup s.cortes cid).isSome = true

lemma lookup_append_of_some {α : Type _} {l : List (Nat × α)} (l' : List (Nat × α))
    {k : Nat} {v : α} (h : lookup l k = some v) : lookup (l ++ l') k = some v := by
  induction l with
  | nil => simp [lookup] at h
  | cons x rest ih =>
    obtain ⟨k2, w⟩ := x
    by_cases hk : (k2 == k) = true
    · simp only [lookup, hk, if_true] at h
      simpa [lookup, hk] using h
    · simp only [lookup, hk, if_false] at h
      simpa [lookup, hk] using ih h

lemma lookup_append_isSome {α : Type _} {l : List (Nat × α)} (l' : List (Nat × α))
    {k : Nat} (h : (lookup l k).isSome = true) :
    (lookup (l ++ l') k).isSome = true := by
  obtain ⟨v, hv⟩ := Option.isSome_iff_exists.mp h
  rw [lookup_append_of_some l' hv]
  rfl

lemma lookup_append_self {α : Type _} (l : List (Nat × α)) (k : Nat) (v : α) :
    (lookup (l ++ [(k, v)]) k).isSome = true := by
  induction l with
  | nil => simp [lookup]
  | cons x rest ih =>
    obtain ⟨k2, w⟩ := x
    by_cases hk : (k2 == k) = true <;> simp [lookup, hk, ih]

lemma lookup_updateLookup {α : Type _} (l : List (Nat × α)) (k k' : Nat) (f : α → α) :
    lookup (updateLookup l k f) k' =
      if k' = k then (lookup l k).map f else lookup l k' := by
  induction l with
  | nil => by_cases h : k' = k <;> simp [lookup, updateLookup, h]
  | cons x rest ih =>
    obtain ⟨k2, v⟩ := x
    by_cases h2 : k2 = k
    · subst h2
      by_cases h3 : k' = k2
      · subst h3
        simp [lookup, updateLookup]
      · have hne : (k2 == k') = false := beq_eq_false_iff_ne.mpr fun hh => h3 hh.symm
        simp [lookup, updateLookup, hne, h3]
    · have hb2 : (k2 == k) = false := beq_eq_false_iff_ne.mpr h2
      by_cases h3 : k' = k2
      · subst h3
        simp [lookup, updateLookup, hb2, h2]
      · have hb3 : (k2 == k') = false := beq_eq_false_iff_ne.mpr fun hh => h3 hh.symm
        simp [lookup, updateLookup, hb2, hb3, ih]

/-- C4: when device and latest-state exist, register-cut appends exactly
one new Cut whose start-of-period supplies equal the previous cut's
end-of-period supplies (empty when no previous cut resolves) and whose
end-of-period supplies equal the LatestState's current supply snapshot. -/
theorem registrarCorte_supplies :
    ∀ (s : Store) (pid : Nat) (now : Int) (latest : LatestState),
      (lookup s.impresoras pid).isSome = true →
      lookup s.latests pid = some latest →
      ∃ c : Corte,
        (registrarCorte s pid now).2.cortes = s.cortes ++ [(s.nextCorteId, c)] ∧
        (∀ prev, latest.ultimoCorteId.bind (lookup s.cortes) = some prev →
          c.suppliesInicio = prev.suppliesFin) ∧
        (latest.ultimoCorteId.bind (lookup s.cortes) = none → c.suppliesInicio = []) ∧
        c.suppliesFin = latest.lastSupplies := by
  intro s pid now latest him hlat
  obtain ⟨imp, him'⟩ := Option.isSome_iff_exists.mp him
  refine ⟨nuevoCorte pid imp latest (latest.ultimoCorteId.bind (lookup s.cortes)) now,
    ?_, ?_, ?_, rfl⟩
  · simp [registrarCorte, him', hlat, registrarCorteOps, applyOps, applyOp]
  · intro prev hprev
    simp [nuevoCorte, hprev]
  · intro hnone
    simp [nuevoCorte, hnone]

/-- Previous cut stored for the C4 witness. -/
def corteC4 : Corte :=
  { printerId := 0, empresaId := 1, fechaCorte := 10,
    contadorInicioGeneral := 0, contadorFinGeneral := 1500,
    totalPaginasGeneral := 1500, periodo := "Desde instalación",
    suppliesInicio := [],
    suppliesFin := [{ name := some "black", level := some 80, max := some 100 }],
    nombreImpresora := "HP", modeloImpresora := "" }

/-- Device for the C4 witness. -/
def impC4 : Impresora :=
  { empresaId := 1, ciudad := none, host := "10.0.0.1", serial := none,
    sysName := none, sysDescr := none, printerName := some "HP", model := none }

/-- Latest-state record for the C4 witness, pointing at `corteC4`. -/
def latestC4 : LatestState :=
  { lastPageCount := some 1800, lastPageMono := none, lastPageColor := none,
    lastSupplies := [{ name := some "black", level := some 60, max := some 100 }],
    lastSeenAt := some (TsVal.parsed 0), lowToner := false, online := some true,
    ultimoCorteId := some 5, lastCutDate := some 10 }

/-- Store for the C4 witness. -/
def storeC4 : Store :=
  { impresoras := [(0, impC4)], latests := [(0, latestC4)],
    cortes := [(5, corteC4)], nextCorteId := 6 }

/-- C4 witness: at the concrete store both preconditions hold and the
supplies round-trip is realized. -/
theorem registrarCorte_supplies_witness :
    (lookup storeC4.impresoras 0).isSome = true ∧
      lookup storeC4.latests 0 = some latestC4 ∧
      ∃ c : Corte,
        (registrarCorte storeC4 0 99).2.cortes =
          storeC4.cortes ++ [(storeC4.nextCorteId, c)] ∧
        (∀ prev, latestC4.ultimoCorteId.bind (lookup storeC4.cortes) = some prev →
          c.suppliesInicio = prev.suppliesFin) ∧
        (latestC4.ultimoCorteId.bind (lookup storeC4.cortes) = none →
          c.suppliesInicio = []) ∧
        c.suppliesFin = latestC4.lastSupplies :=
  ⟨rfl, rfl, registrarCorte_supplies storeC4 0 99 latestC4 rfl rfl⟩

/-- C5: register-cut on a missing device or a device with no
latest-state record answers Not-Found and leaves the store unchanged —
no cut is created. -/
theorem registrarCorte_notFound :
    ∀ (s : Store) (pid : Nat) (now : Int),
      lookup s.impresoras pid = none ∨ lookup s.latests pid = none →
      (∃ msg, (registrarCorte s pid now).1 = RegistrarResult.notFound msg) ∧
        (registrarCorte s pid now).2 = s := by
  intro s pid now h
  cases him : lookup s.impresoras pid with
  | none =>
    exact ⟨⟨"Impresora no encontrada", by simp [registrarCorte, him]⟩,
      by simp [registrarCorte, him]⟩
  | some imp =>
    cases hlat : lookup s.latests pid with
    | none =>
      exact ⟨⟨"Datos de impresora no encontrados", by simp [registrarCorte, him, hlat]⟩,
        by simp [registrarCorte, him, hlat]⟩
    | some latest =>
      rcases h with h | h
      · rw [him] at h
        exact absurd h (by simp)
      · rw [hlat] at h
        exact absurd h (by simp)

/-- Empty store for the C5 witness. -/
def storeC5 : Store := { impresoras := [], latests := [], cortes := [], nextCorteId := 0 }

/-- C5 witness: on the empty store the device is missing, the answer is
Not-Found and the store is unchanged. -/
theorem registrarCorte_notFound_witness :
    (lookup storeC5.impresoras 0 = none ∨ lookup storeC5.latests 0 = none) ∧
      ((∃ msg, (registrarCorte storeC5 0 0).1 = RegistrarResult.notFound msg) ∧
        (registrarCorte storeC5 0 0).2 = storeC5) :=
  ⟨Or.inl rfl, registrarCorte_notFound storeC5 0 0 (Or.inl rfl)⟩

/-- C6: within register-cut every pointer update in the emitted write
sequence is preceded by the save of the very cut it points at, and hence
every prefix of the sequence preserves the invariant that each stored
latest-cut pointer references a persisted Cut: no reachable intermediate
state dangles. -/
theorem registrarCorte_persistence_order :
    ∀ (s : Store) (pid : Nat) (now : Int),
      pointerIntact s →
      (∀ (j pid2 cid : Nat) (d : Int),
        (registrarCorteOps s pid now)[j]? = some (StoreOp.setUltimoCorte pid2 cid d) →
        ∃ (i : Nat) (c2 : Corte), i < j ∧
          (registrarCorteOps s pid now)[i]? = some (StoreOp.saveCorte cid c2)) ∧
      (∀ n : Nat, pointerIntact (applyOps s ((registrarCorteOps s pid now).take n))) := by
  intro s pid now hI
  cases him : lookup s.impresoras pid with
  | none =>
    constructor
    · intro j pid2 cid d hj
      simp [registrarCorteOps, him] at hj
    · intro n
      simpa [registrarCorteOps, him, applyOps] using hI
  | some imp =>
    cases hlat : lookup s.latests pid with
    | none =>
      constructor
      · intro j pid2 cid d hj
        simp [registrarCorteOps, him, hlat] at hj
      · intro n
        simpa [registrarCorteOps, him, hlat, applyOps] using hI
    | some latest =>
      have hops : registrarCorteOps s pid now =
          [StoreOp.saveCorte s.nextCorteId
            (nuevoCorte pid imp latest (latest.ultimoCorteId.bind (lookup s.cortes)) now),
           StoreOp.setUltimoCorte pid s.nextCorteId now] := by
        simp [registrarCorteOps, him, hlat]
      constructor
      · intro j pid2 cid d hj
        rw [hops] at hj
        match j with
        | 0 => simp at hj
        | 1 =>
          simp at hj
          refine ⟨0, nuevoCorte pid imp latest (latest.ultimoCorteId.bind (lookup s.cortes)) now,
            Nat.zero_lt_one, ?_⟩
          rw [hops]
          simp [hj.2.1]
        | (j + 2) => simp at hj
      · intro n
        rw [hops]
        match n with
        | 0 => simpa [applyOps] using hI
        | 1 =>
          simp only [List.take, applyOps, List.foldl, applyOp]
          intro pid' l cid h1 h2
          exact lookup_append_isSome _ (hI pid' l cid h1 h2)
        | (n + 2) =>
          simp only [List.take, List.take_nil, applyOps, List.foldl, List.foldl_nil, applyOp]
          intro pid' l cid h1 h2
          rw [lookup_updateLookup] at h1
          by_cases hp : pid' = pid
          · rw [if_pos hp, hlat] at h1
            simp only [Option.map_some'] at h1
            injection h1 with h1
            subst h1
            have hcid : s.nextCorteId = cid := by simpa using h2
            subst hcid
            exact lookup_append_self _ _ _
          · rw [if_neg hp] at h1
            exact lookup_append_isSome _ (hI pid' l cid h1 h2)

/-- Device for the C6 witness. -/
def impC6 : Impresora :=
  { empresaId := 2, ciudad := none, host := "10.0.0.2", serial := none,
    sysName := none, sysDescr := none, printerName := none, model := none }

/-- Latest-state record for the C6 witness (no cut yet). -/
def latestC6 : LatestState :=
  { lastPageCount := some 500, lastPageMono := none, lastPageColor := none,
    lastSupplies := [], lastSeenAt := some (TsVal.parsed 0), lowToner := false,
    online := some true, ultimoCorteId := none, lastCutDate := none }

/-- Store for the C6 witness. -/
def storeC6 : Store :=
  { impresoras := [(0, impC6)], latests := [(0, latestC6)],
    cortes := [], nextCorteId := 0 }

/-- C6 witness: after only the first emitted write (the cut save) the
pointer invariant still holds at the concrete store. -/
theorem registrarCorte_persistence_order_witness :
    pointerIntact (applyOps storeC6 ((registrarCorteOps storeC6 0 77).take 1)) :=
  (registrarCorte_persistence_order storeC6 0 77 (by
    intro pid l cid h1 h2
    by_cases h : (0 == pid) = true
    · have hl : latestC6 = l := by
        have h1' := h1
        simp only [storeC6, lookup, h, if_true] at h1'
        exact Option.some_injective _ h1'
      rw [← hl] at h2
      simp [latestC6] at h2
    · have h1' := h1
      simp only [storeC6, lookup, h, if_false] at h1'
      simp at h1')).2 1

/-- The cut fields the PDF layout consumes: the period label and the
three headline counters (plus the end-of-period supplies section). -/
structure ReportInputs where
  periodo : String
  contadorInicioGeneral : Int
  contadorFinGeneral : Int
  totalPaginasGeneral : Int
  suppliesFin : List Supply
  deriving DecidableEq, Repr

/-- Outcome of the render route: 400 when no cut is resolvable, 500 when
the device read returns null (the renderer then throws a TypeError at
`impresora.empresaId?.nombre`, caught by the route's handler), else the
rendered inputs. -/
inductive PdfResult where
  | badRequest : String → PdfResult
  | serverError : PdfResult
  | okPdf : ReportInputs → PdfResult
  deriving DecidableEq, Repr

/-- The render route reads `corte.ultimoCorteId`, but the cut document
carries no such field: the register-cut route never writes one and the
Cut data model lists none, so the read always yields `undefined`. -/
def corteUltimoCorteId (_c : Corte) : Option Nat := none

/-- `GET /api/impresoras/:id/generar-pdf`: resolve the latest finalized
cut through the LatestState pointer (400 when absent or dangling), then
read the device with `Impresora.findById` — a null device makes the
renderer throw at `impresora.empresaId?.nombre` and the route answer
500 — then hand the renderer `{...corte, periodo: calculosPeriodo.periodo}`:
the stored cut with its period label overridden by a label recomputed
from the cut's (absent) previous-cut reference and the current
LatestState. -/
def generarPdf (s : Store) (printerId : Nat) (now : Int) : PdfResult :=
  match lookup s.latests printerId with
  | none => PdfResult.badRequest "Primero debe registrar un corte para generar el PDF"
  | some latest =>
    match latest.ultimoCorteId.bind (lookup s.cortes) with
    | none => PdfResult.badRequest "Primero debe registrar un corte para generar el PDF"
    | some corte =>
      match lookup s.impresoras printerId with
      | none => PdfResult.serverError
      | some _ =>
        let ultimoCorteAnterior := (corteUltimoCorteId corte).bind (lookup s.cortes)
        let calculosPeriodo := calcularPeriodoCorte ultimoCorteAnterior latest now
        PdfResult.okPdf
          { periodo := calculosPeriodo.periodo
            contadorInicioGeneral := corte.contadorInicioGeneral
            contadorFinGeneral := corte.contadorFinGeneral
            totalPaginasGeneral := corte.totalPaginasGeneral
            suppliesFin := corte.suppliesFin }

/-- A finalized second cut for the C10 inputs: its stored period label
is the date range "10 - 99", not the first-cut label. -/
def corteC10 : Corte :=
  { printerId := 0, empresaId := 3, fechaCorte := 99,
    contadorInicioGeneral := 1500, contadorFinGeneral := 1800,
    totalPaginasGeneral := 300, periodo := "10 - 99",
    suppliesInicio := [], suppliesFin := [],
    nombreImpresora := "HP", modeloImpresora := "" }

/-- Latest-state record for the C10 inputs, pointing at `corteC10`. -/
def latestC10 : LatestState :=
  { lastPageCount := some 1800, lastPageMono := none, lastPageColor := none,
    lastSupplies := [], lastSeenAt := some (TsVal.parsed 0), lowToner := false,
    online := some true, ultimoCorteId := some 7, lastCutDate := some 99 }

/-- Device for the C10 inputs. -/
def impC10 : Impresora :=
  { empresaId := 3, ciudad := none, host := "10.0.0.3", serial := none,
    sysName := none, sysDescr := none, printerName := some "HP", model := none }

/-- Store for the C10 inputs: device, latest-state and finalized cut all
present. -/
def storeC10 : Store :=
  { impresoras := [(0, impC10)], latests := [(0, latestC10)],
    cortes := [(7, corteC10)], nextCorteId := 8 }

/-- C10 counterexample: rendering the existing device whose finalized
cut stores the period label "10 - 99" produces the label
"Desde instalación" — the document's period label is not the finalized
cut's. -/
theorem generarPdf_ne_claim :
    lookup storeC10.impresoras 0 = some impC10 ∧
      lookup storeC10.latests 0 = some latestC10 ∧
      latestC10.ultimoCorteId = some 7 ∧
      lookup storeC10.cortes 7 = some corteC10 ∧
      generarPdf storeC10 0 1000 = PdfResult.okPdf
        { periodo := "Desde instalación"
          contadorInicioGeneral := corteC10.contadorInicioGeneral
          contadorFinGeneral := corteC10.contadorFinGeneral
          totalPaginasGeneral := corteC10.totalPaginasGeneral
          suppliesFin := corteC10.suppliesFin } ∧
      corteC10.periodo ≠ "Desde instalación" := by
  refine ⟨rfl, rfl, rfl, rfl, rfl, by decide⟩

/-- C10 amended: for every existing device whose LatestState references
a finalized Cut, the rendered report consumes the Cut's start counter,
end counter, total pages and end-of-period supplies, but not its stored
period label: the label is recomputed at render time from the Cut's
absent previous-cut reference and the current LatestState, so it is
always the first-cut label "Desde instalación". -/
theorem generarPdf_amended :
    ∀ (s : Store) (pid : Nat) (now : Int) (latest : LatestState) (corte : Corte),
      (lookup s.impresoras pid).isSome = true →
      lookup s.latests pid = some latest →
      latest.ultimoCorteId.bind (lookup s.cortes) = some corte →
      generarPdf s pid now = PdfResult.okPdf
        { periodo := (calcularPeriodoCorte none latest now).periodo
          contadorInicioGeneral := corte.contadorInicioGeneral
          contadorFinGeneral := corte.contadorFinGeneral
          totalPaginasGeneral := corte.totalPaginasGeneral
          suppliesFin := corte.suppliesFin } ∧
      (calcularPeriodoCorte none latest now).periodo = "Desde instalación" := by
  intro s pid now latest corte him h1 h2
  obtain ⟨imp, him'⟩ := Option.isSome_iff_exists.mp him
  constructor
  · simp [generarPdf, h1, h2, him', corteUltimoCorteId]
  · rfl

/-- C10 witness: device existence and both resolution hypotheses hold
at the concrete store and the rendered inputs carry the cut's counters
under the recomputed first-cut label. -/
theorem generarPdf_amended_witness :
    (lookup storeC10.impresoras 0).isSome = true ∧
      lookup storeC10.latests 0 = some latestC10 ∧
      latestC10.ultimoCorteId.bind (lookup storeC10.cortes) = some corteC10 ∧
      (generarPdf storeC10 0 1000 = PdfResult.okPdf
        { periodo := (calcularPeriodoCorte none latestC10 1000).periodo
          contadorInicioGeneral := corteC10.contadorInicioGeneral
          contadorFinGeneral := corteC10.contadorFinGeneral
          totalPaginasGeneral := corteC10.totalPaginasGeneral
          suppliesFin := corteC10.suppliesFin } ∧
        (calcularPeriodoCorte none latestC10 1000).periodo = "Desde instalación") :=
  ⟨rfl, rfl, rfl, generarPdf_amended storeC10 0 1000 latestC10 corteC10 rfl rfl rfl⟩

end GrapeMonitor
